import Mathlib

/-!
Shallow embedding of `examples/auto-retry.py`: the retry/backoff decision
engine (error classification, retry policy, exponential backoff, and the
attempt-aggregation loop `run_with_retry`), together with the exit-code
convention of `main`.

Python integers are modelled as `Int`, Python floats (used only for delays
and execution times, where the program performs exact operations:
multiplication by powers of two, `min`, comparison) as `Rat`.  Dictionary
fields that may be absent are modelled as `Option` with the `.get(key,
default)` calls of the source rendered as `Option.getD`.  The external
executor (`run_on_colab`) is abstracted as a function from the 1-based
attempt index to the decoded response, exactly the interface the loop
consumes.  Exceptional termination of `run_with_retry` (an exception
escaping to the caller) is modelled by `Option.none`: the loop body never
running leaves the Python variable `attempt` unbound (an
`UnboundLocalError` at the final `ExecutionResult(...)`), and
`time.sleep` raises `ValueError` on a negative delay.
-/

/-- The `ErrorCategory` enum of the source (categories of errors for retry
decisions). -/
inductive ErrorCategory where
  | TRANSIENT
  | RESOURCE
  | CODE
  | AUTH
  | UNKNOWN
deriving DecidableEq, Repr

/-- The `.value` strings of the Python enum members. -/
def ErrorCategory.value : ErrorCategory → String
  | .TRANSIENT => "transient"
  | .RESOURCE => "resource"
  | .CODE => "code"
  | .AUTH => "auth"
  | .UNKNOWN => "unknown"

/-- Error codes that are transient and should be retried. -/
def TRANSIENT_ERROR_CODES : List Int := [1101, 1103, 1105, 1401, 1402]

/-- Error codes that might succeed with backoff. -/
def RESOURCE_ERROR_CODES : List Int := [1104, 1204]

/-- Error codes that should not be retried. -/
def NON_RETRYABLE_CODES : List Int := [1001, 1002, 1003, 1004, 1201, 1202, 1205, 1206]

/-- `categorize_error`: categorize an error code for retry decisions. -/
def categorize_error (error_code : Int) : ErrorCategory :=
  if error_code ∈ TRANSIENT_ERROR_CODES then .TRANSIENT
  else if error_code ∈ RESOURCE_ERROR_CODES then .RESOURCE
  else if error_code ∈ NON_RETRYABLE_CODES then
    (if error_code ≥ 1200 then .CODE else .AUTH)
  else .UNKNOWN

/-- `should_retry`: determine if an error should be retried after the given
(1-based) attempt has just completed. -/
def should_retry (error_code attempt max_retries : Int) : Bool :=
  if attempt ≥ max_retries then false
  else
    match categorize_error error_code with
    | .TRANSIENT => true
    | .RESOURCE => decide (attempt < 3)
    | .UNKNOWN => decide (attempt < 2)
    | _ => false

/-- The backoff delay computed at line 203 of the source:
`min(base_delay * (2 ** (attempt - 1)), max_delay)`.  The exponent is an
integer power (`zpow`), exactly as Python computes it. -/
def backoff_delay (attempt : Int) (base_delay max_delay : Rat) : Rat :=
  min (base_delay * 2 ^ (attempt - 1)) max_delay

section Characterizations

/-- Logical characterization of `should_retry`, shared by the claim
theorems below. -/
lemma should_retry_eq_true_iff (code attempt max_retries : Int) :
    should_retry code attempt max_retries = true ↔
      attempt < max_retries ∧
        (categorize_error code = .TRANSIENT ∨
         (categorize_error code = .RESOURCE ∧ attempt < 3) ∨
         (categorize_error code = .UNKNOWN ∧ attempt < 2)) := by
  unfold should_retry
  by_cases h : attempt ≥ max_retries
  · simp [h]
  · simp only [h, if_false]
    cases hc : categorize_error code <;> simp [hc] <;> omega

lemma should_retry_lt_max {code attempt max_retries : Int}
    (h : should_retry code attempt max_retries = true) : attempt < max_retries :=
  ((should_retry_eq_true_iff code attempt max_retries).mp h).1

end Characterizations

/-- The `error` sub-dictionary of a failure response
(`{"code": ..., "message": ...}`); either key may be absent. -/
structure RawError where
  code : Option Int := none
  message : Option String := none
deriving DecidableEq, Repr

/-- A decoded response of the external executor (`run_on_colab`'s return
value): a dictionary whose keys may each be absent.  `success` models the
truthiness of `result.get("success")`. -/
structure RawResponse where
  success : Bool
  result : Option String := none
  stdout : Option String := none
  stderr : Option String := none
  executionTime : Option Rat := none
  error : Option RawError := none
deriving DecidableEq, Repr

/-- The `ExecutionResult` dataclass of the source. -/
structure ExecutionResult where
  success : Bool
  result : Option String := none
  stdout : String := ""
  stderr : String := ""
  execution_time : Rat := 0
  error_code : Option Int := none
  error_message : Option String := none
  attempts : Nat := 1
deriving DecidableEq, Repr

/-- Line 184-185 of the source:
`error = result.get("error", {}); last_error_code = error.get("code", 0)`. -/
def errorCodeOf (r : RawResponse) : Int :=
  ((r.error.getD {}).code).getD 0

/-- Line 184, 186 of the source:
`last_error_message = error.get("message", "Unknown error")`. -/
def errorMessageOf (r : RawResponse) : String :=
  ((r.error.getD {}).message).getD "Unknown error"

/-- One progress message printed to stderr by `run_with_retry` when
`verbose` is set (the side channel).  Each constructor carries the data
interpolated into the corresponding f-string. -/
inductive LogEvent where
  | attemptStart (attempt : Nat) (max_retries : Int)
  | errorInfo (code : Int) (category : ErrorCategory) (message : String)
  | notRetrying
  | retryingIn (delay : Rat)
deriving DecidableEq, Repr

/-- Observable side effects of one `run_with_retry` call: the attempt
indices at which the executor was invoked, the stderr progress messages,
and the delays passed to `time.sleep`. -/
structure RetryTrace where
  calls : List Nat
  log : List LogEvent
  delays : List Rat
deriving DecidableEq, Repr

/-- The body of `run_with_retry`'s `for` loop, entered at attempt index
`attempt`.  `ex` abstracts `run_on_colab` (`ex a` is the decoded response
of attempt `a`).  Returns `none` when the Python code raises: a negative
computed delay makes `time.sleep` raise `ValueError`.  Note that the
`for` loop can never exhaust `range(1, max_retries + 1)` without the
`break` firing, because `should_retry` returns false whenever
`attempt >= max_retries`; hence the `break` at line 200 is the only way
the loop ends without returning, exactly as modelled here. -/
def retryLoop (ex : Nat → RawResponse) (max_retries : Int)
    (base_delay max_delay : Rat) (verbose : Bool) (attempt : Nat) :
    Option (ExecutionResult × RetryTrace) :=
  let startLog := if verbose then [LogEvent.attemptStart attempt max_retries] else []
  let r := ex attempt
  if r.success then
    some ({ success := true, result := r.result, stdout := r.stdout.getD "",
            stderr := r.stderr.getD "", execution_time := r.executionTime.getD 0,
            attempts := attempt },
          { calls := [attempt], log := startLog, delays := [] })
  else
    let last_error_code := errorCodeOf r
    let last_error_message := errorMessageOf r
    let errLog := if verbose then
        [LogEvent.errorInfo last_error_code (categorize_error last_error_code)
          last_error_message] else []
    if h : should_retry last_error_code attempt max_retries then
      let delay := backoff_delay attempt base_delay max_delay
      let sleepLog := if verbose then [LogEvent.retryingIn delay] else []
      if delay < 0 then none
      else
        (retryLoop ex max_retries base_delay max_delay verbose (attempt + 1)).map
          (fun p => (p.1,
            { calls := attempt :: p.2.calls,
              log := startLog ++ errLog ++ sleepLog ++ p.2.log,
              delays := delay :: p.2.delays }))
    else
      let stopLog := if verbose then [LogEvent.notRetrying] else []
      some ({ success := false, error_code := some last_error_code,
              error_message := some last_error_message, attempts := attempt },
            { calls := [attempt], log := startLog ++ errLog ++ stopLog,
              delays := [] })
termination_by (max_retries + 1 - attempt).toNat
decreasing_by
  have hlt := should_retry_lt_max h
  omega

/-- `run_with_retry`: execute code with automatic retry on transient
failures.  Returns `none` when the Python function raises an exception:
if `max_retries < 1` the `for` loop body never runs, so the final
`ExecutionResult(..., attempts=attempt)` at line 211-216 raises
`UnboundLocalError` (`attempt` was never bound). -/
def run_with_retry (ex : Nat → RawResponse) (max_retries : Int)
    (base_delay max_delay : Rat) (verbose : Bool) :
    Option (ExecutionResult × RetryTrace) :=
  if max_retries < 1 then none
  else retryLoop ex max_retries base_delay max_delay verbose 1

/-- The process exit status of `main` (lines 287-326) as a function of the
output mode and the final `ExecutionResult`: the `--json` branch prints
the JSON document and falls through (exit 0) whether or not the run
succeeded; the plain branch calls `sys.exit(1)` on failure. -/
def main_exit_code (json_mode : Bool) (result : ExecutionResult) : Nat :=
  if json_mode then 0
  else if result.success then 0 else 1

/-- The `ExecutionResult` built at lines 174-181 (first success). -/
def successResult (r : RawResponse) (attempt : Nat) : ExecutionResult :=
  { success := true, result := r.result, stdout := r.stdout.getD "",
    stderr := r.stderr.getD "", execution_time := r.executionTime.getD 0,
    attempts := attempt }

/-- The `ExecutionResult` built at lines 211-216 (retries over). -/
def failureResult (r : RawResponse) (attempt : Nat) : ExecutionResult :=
  { success := false, error_code := some (errorCodeOf r),
    error_message := some (errorMessageOf r), attempts := attempt }

lemma backoff_delay_nonneg {b m : Rat} (a : Int) (hb : 0 ≤ b) (hm : 0 ≤ m) :
    0 ≤ backoff_delay a b m :=
  le_min (mul_nonneg hb (zpow_pos (by norm_num) _).le) hm

section StepLemmas

variable {ex : Nat → RawResponse} {max_retries : Int} {b m : Rat} {v : Bool} {a : Nat}

/-- Unfolding of the loop body when attempt `a` succeeds. -/
lemma retryLoop_success (hs : (ex a).success = true) :
    retryLoop ex max_retries b m v a =
      some (successResult (ex a) a,
        { calls := [a],
          log := if v then [LogEvent.attemptStart a max_retries] else [],
          delays := [] }) := by
  rw [retryLoop]
  simp [hs, successResult]

/-- Unfolding of the loop body when attempt `a` fails and the policy
denies a retry: the `break` at line 200 fires. -/
lemma retryLoop_stop (hs : (ex a).success = false)
    (hr : should_retry (errorCodeOf (ex a)) a max_retries = false) :
    retryLoop ex max_retries b m v a =
      some (failureResult (ex a) a,
        { calls := [a],
          log := (if v then [LogEvent.attemptStart a max_retries] else []) ++
                 (if v then [LogEvent.errorInfo (errorCodeOf (ex a))
                     (categorize_error (errorCodeOf (ex a)))
                     (errorMessageOf (ex a))] else []) ++
                 (if v then [LogEvent.notRetrying] else []),
          delays := [] }) := by
  rw [retryLoop]
  simp [hs, hr, failureResult]

/-- Unfolding of the loop body when attempt `a` fails, the policy allows a
retry, and the computed delay is nonnegative: sleep, then loop. -/
lemma retryLoop_retry (hs : (ex a).success = false)
    (hr : should_retry (errorCodeOf (ex a)) a max_retries = true)
    (hd : ¬ backoff_delay a b m < 0) :
    retryLoop ex max_retries b m v a =
      (retryLoop ex max_retries b m v (a + 1)).map (fun p => (p.1,
        { calls := a :: p.2.calls,
          log := (if v then [LogEvent.attemptStart a max_retries] else []) ++
                 (if v then [LogEvent.errorInfo (errorCodeOf (ex a))
                     (categorize_error (errorCodeOf (ex a)))
                     (errorMessageOf (ex a))] else []) ++
                 (if v then [LogEvent.retryingIn (backoff_delay a b m)] else []) ++
                 p.2.log,
          delays := backoff_delay a b m :: p.2.delays })) := by
  rw [retryLoop]
  simp [hs, hr, hd]

/-- Unfolding of the loop body when attempt `a` fails, the policy allows a
retry, but the computed delay is negative: `time.sleep` raises. -/
lemma retryLoop_sleep_raises (hs : (ex a).success = false)
    (hr : should_retry (errorCodeOf (ex a)) a max_retries = true)
    (hd : backoff_delay a b m < 0) :
    retryLoop ex max_retries b m v a = none := by
  rw [retryLoop]
  simp [hs, hr, hd]

end StepLemmas

lemma should_retry_ceiling {c attempt max_retries : Int} (h : max_retries ≤ attempt) :
    should_retry c attempt max_retries = false := by
  unfold should_retry
  rw [if_pos h]

section LoopSpec

variable {ex : Nat → RawResponse} {max_retries : Int} {b m : Rat} {v : Bool}

/-- The shape of the claims C3/C4/C6/C7 share: the loop entered at attempt
`a` returns a result together with a trace of consecutive calls, every
attempt before the last failed and was allowed a retry by the policy, and
the last attempt either succeeded or was denied a retry. -/
def LoopOutcome (ex : Nat → RawResponse) (max_retries : Int) (b m : Rat)
    (v : Bool) (a : Nat) : Prop :=
  ∃ r t, retryLoop ex max_retries b m v a = some (r, t) ∧
    a ≤ r.attempts ∧ (r.attempts : Int) ≤ max_retries ∧
    t.calls = List.range' a (r.attempts - a + 1) ∧
    t.delays = (List.range' a (r.attempts - a)).map
      (fun j : Nat => backoff_delay (j : Int) b m) ∧
    (∀ j, a ≤ j → j < r.attempts →
      (ex j).success = false ∧
        should_retry (errorCodeOf (ex j)) j max_retries = true) ∧
    (((ex r.attempts).success = true ∧
        r = successResult (ex r.attempts) r.attempts) ∨
     ((ex r.attempts).success = false ∧
        should_retry (errorCodeOf (ex r.attempts)) r.attempts max_retries = false ∧
        r = failureResult (ex r.attempts) r.attempts))

lemma loopOutcome_of_success {a : Nat} (hs : (ex a).success = true)
    (hle : (a : Int) ≤ max_retries) :
    LoopOutcome ex max_retries b m v a := by
  refine ⟨successResult (ex a) a, _, retryLoop_success hs, ?_, ?_, ?_, ?_, ?_, ?_⟩
  · simp [successResult]
  · simpa [successResult] using hle
  · simp [successResult]
  · simp [successResult]
  · intro j hj1 hj2
    simp only [successResult] at hj2
    omega
  · exact Or.inl ⟨hs, rfl⟩

lemma loopOutcome_of_stop {a : Nat} (hs : (ex a).success = false)
    (hr : should_retry (errorCodeOf (ex a)) a max_retries = false)
    (hle : (a : Int) ≤ max_retries) :
    LoopOutcome ex max_retries b m v a := by
  refine ⟨failureResult (ex a) a, _, retryLoop_stop hs hr, ?_, ?_, ?_, ?_, ?_, ?_⟩
  · simp [failureResult]
  · simpa [failureResult] using hle
  · simp [failureResult]
  · simp [failureResult]
  · intro j hj1 hj2
    simp only [failureResult] at hj2
    omega
  · exact Or.inr ⟨hs, hr, rfl⟩

/-- Total-correctness characterization of the loop: started at any attempt
`1 ≤ a ≤ max_retries` with nonnegative delay parameters, it terminates
normally with the outcome shape above. -/
lemma retryLoop_spec (hb : 0 ≤ b) (hm : 0 ≤ m) :
    ∀ a : Nat, 1 ≤ a → (a : Int) ≤ max_retries →
      LoopOutcome ex max_retries b m v a := by
  have key : ∀ n : Nat, ∀ a : Nat, (max_retries - a).toNat ≤ n → 1 ≤ a →
      (a : Int) ≤ max_retries → LoopOutcome ex max_retries b m v a := by
    intro n
    induction n with
    | zero =>
      intro a hn h1 hle
      cases hs : (ex a).success with
      | true => exact loopOutcome_of_success hs hle
      | false =>
        have hr : should_retry (errorCodeOf (ex a)) a max_retries = false :=
          should_retry_ceiling (by omega)
        exact loopOutcome_of_stop hs hr hle
    | succ n IH =>
      intro a hn h1 hle
      cases hs : (ex a).success with
      | true => exact loopOutcome_of_success hs hle
      | false =>
        cases hr : should_retry (errorCodeOf (ex a)) a max_retries with
        | false => exact loopOutcome_of_stop hs hr hle
        | true =>
          have hd : ¬ backoff_delay a b m < 0 :=
            not_lt.mpr (backoff_delay_nonneg _ hb hm)
          have hlt : (a : Int) < max_retries := should_retry_lt_max hr
          obtain ⟨r, t, heq, hat, hatm, hcalls, hdelays, hpre, hterm⟩ :=
            IH (a + 1) (by omega) (by omega) (by push_cast; omega)
          refine ⟨r,
            { calls := a :: t.calls,
              log := (if v then [LogEvent.attemptStart a max_retries] else []) ++
                     (if v then [LogEvent.errorInfo (errorCodeOf (ex a))
                         (categorize_error (errorCodeOf (ex a)))
                         (errorMessageOf (ex a))] else []) ++
                     (if v then [LogEvent.retryingIn (backoff_delay a b m)] else []) ++
                     t.log,
              delays := backoff_delay a b m :: t.delays },
            ?_, by omega, hatm, ?_, ?_, ?_, hterm⟩
          · rw [retryLoop_retry hs hr hd, heq]
            rfl
          · show a :: t.calls = _
            rw [hcalls, show r.attempts - a + 1 = (r.attempts - (a + 1) + 1) + 1 by
              omega, List.range'_succ, List.range'_succ, List.range'_succ]
          · show backoff_delay a b m :: t.delays = _
            rw [hdelays, show r.attempts - a = (r.attempts - (a + 1)) + 1 by omega,
              List.range'_succ, List.map_cons]
          · intro j hja hjr
            rcases Nat.eq_or_lt_of_le hja with hj | hj
            · exact hj ▸ ⟨hs, hr⟩
            · exact hpre j hj hjr
  intro a h1 hle
  exact key (max_retries - a).toNat a le_rfl h1 hle

end LoopSpec

section VerboseIndep

variable {ex : Nat → RawResponse} {max_retries : Int} {b m : Rat}

lemma map_proj_comm (X : Option (ExecutionResult × RetryTrace)) (a : Nat) (d : Rat)
    (L : ExecutionResult × RetryTrace → List LogEvent) :
    (X.map (fun p => (p.1,
      ({ calls := a :: p.2.calls,
         log := L p,
         delays := d :: p.2.delays } : RetryTrace)))).map
      (fun p => (p.1, p.2.calls, p.2.delays)) =
    (X.map (fun p => (p.1, p.2.calls, p.2.delays))).map
      (fun q => (q.1, a :: q.2.1, d :: q.2.2)) := by
  cases X <;> rfl

/-- The returned result, the attempt indices used, and the delays slept are
all independent of the `verbose` flag; only the stderr log differs. -/
lemma retryLoop_verbose_indep :
    ∀ (a : Nat) (v1 v2 : Bool),
      (retryLoop ex max_retries b m v1 a).map (fun p => (p.1, p.2.calls, p.2.delays)) =
      (retryLoop ex max_retries b m v2 a).map (fun p => (p.1, p.2.calls, p.2.delays)) := by
  have key : ∀ n : Nat, ∀ a : Nat, (max_retries + 1 - a).toNat ≤ n → ∀ v1 v2 : Bool,
      (retryLoop ex max_retries b m v1 a).map (fun p => (p.1, p.2.calls, p.2.delays)) =
      (retryLoop ex max_retries b m v2 a).map (fun p => (p.1, p.2.calls, p.2.delays)) := by
    intro n
    induction n with
    | zero =>
      intro a hn v1 v2
      cases hs : (ex a).success with
      | true =>
        rw [retryLoop_success hs, retryLoop_success hs]
        rfl
      | false =>
        have hr : should_retry (errorCodeOf (ex a)) a max_retries = false :=
          should_retry_ceiling (by omega)
        rw [retryLoop_stop hs hr, retryLoop_stop hs hr]
        rfl
    | succ n IH =>
      intro a hn v1 v2
      cases hs : (ex a).success with
      | true =>
        rw [retryLoop_success hs, retryLoop_success hs]
        rfl
      | false =>
        cases hr : should_retry (errorCodeOf (ex a)) a max_retries with
        | false =>
          rw [retryLoop_stop hs hr, retryLoop_stop hs hr]
          rfl
        | true =>
          by_cases hd : backoff_delay a b m < 0
          · rw [retryLoop_sleep_raises hs hr hd, retryLoop_sleep_raises hs hr hd]
          · rw [retryLoop_retry hs hr hd, retryLoop_retry hs hr hd,
              map_proj_comm, map_proj_comm, IH (a + 1) (by omega) v1 v2]
  intro a v1 v2
  exact key (max_retries + 1 - a).toNat a le_rfl v1 v2

end VerboseIndep

/-! Concrete executor behaviors used by witnesses and counterexamples. -/

/-- A failing response with the Transient code 1101. -/
def respFail1101 : RawResponse :=
  { success := false,
    error := some { code := some 1101, message := some "Connection timeout" } }

/-- A failing response with the Auth code 1001. -/
def respFail1001 : RawResponse :=
  { success := false,
    error := some { code := some 1001, message := some "Authentication failed" } }

/-- A successful response. -/
def respOk : RawResponse :=
  { success := true, result := some "ok", stdout := some "out",
    executionTime := some 2 }

/-- Every attempt fails with code 1101. -/
def exAllFail1101 : Nat → RawResponse := fun _ => respFail1101

/-- Attempt 1 fails with the Auth code 1001; every later attempt would
succeed. -/
def exAuthThenOk : Nat → RawResponse := fun a => if a = 1 then respFail1001 else respOk

/-- Attempts 1 and 2 fail with code 1101; attempt 3 succeeds. -/
def exTwoFailsThenOk : Nat → RawResponse := fun a => if a < 3 then respFail1101 else respOk

/-- Every attempt fails with an error whose message is the empty string. -/
def exEmptyMessage : Nat → RawResponse := fun _ =>
  { success := false, error := some { code := some 1001, message := some "" } }

/-- Evaluation: three 1101 failures with `max_retries = 3`. -/
lemma run_exAllFail1101_eval :
    run_with_retry exAllFail1101 3 1 60 false =
      some ({ success := false, error_code := some 1101,
              error_message := some "Connection timeout", attempts := 3 },
            { calls := [1, 2, 3], log := [], delays := [1, 2] }) := by
  unfold run_with_retry
  rw [if_neg (by norm_num)]
  rw [retryLoop_retry rfl (by decide) (by norm_num [backoff_delay, min_def])]
  rw [retryLoop_retry rfl (by decide) (by norm_num [backoff_delay, min_def])]
  rw [retryLoop_stop rfl (by decide)]
  have hb1 : backoff_delay (1 : Int) 1 60 = 1 := by
    unfold backoff_delay
    norm_num [min_def]
  have hb2 : backoff_delay (2 : Int) 1 60 = 2 := by
    unfold backoff_delay
    norm_num [min_def]
  simp only [show ((1 : Nat) + 1 : Nat) = 2 from rfl, show ((1 : Nat) + 1 + 1 : Nat) = 3 from rfl]
  simp [hb1, hb2, failureResult, errorCodeOf, errorMessageOf, exAllFail1101, respFail1101]

/-! The claim theorems. -/

/-- Claim C1: for every error code, attempt index, and maxAttempts,
`should_retry` returns exactly what the ordered rules dictate: false
whenever `attempt >= max_retries` (for every category); otherwise true if
the code classifies as Transient; true iff `attempt < 3` for Resource;
true iff `attempt < 2` for Unknown; and false unconditionally for Auth or
Code (those categories appear in no disjunct, and the categories are
mutually exclusive values of one function). -/
theorem C1_should_retry_ordered_rules (code attempt max_retries : Int) :
    should_retry code attempt max_retries = true ↔
      attempt < max_retries ∧
        (categorize_error code = .TRANSIENT ∨
         (categorize_error code = .RESOURCE ∧ attempt < 3) ∨
         (categorize_error code = .UNKNOWN ∧ attempt < 2)) :=
  should_retry_eq_true_iff code attempt max_retries

/-- Claim C2: `categorize_error` is total on `Int` (it is a Lean function)
and realizes exactly the stated partition: the Transient and Resource
fibers are the two retryable code lists; the Auth fiber is the
non-retryable codes below 1200, concretely {1001, 1002, 1003, 1004}; the
Code fiber is the non-retryable codes at or above 1200, concretely
{1201, 1202, 1205, 1206}; everything else — including the locally
synthesized timeout code 1203 and the decode-failure sentinel 0 — is
Unknown. -/
theorem C2_categorize_error_partition (code : Int) :
    (categorize_error code = .TRANSIENT ↔ code ∈ TRANSIENT_ERROR_CODES) ∧
    (categorize_error code = .RESOURCE ↔ code ∈ RESOURCE_ERROR_CODES) ∧
    (categorize_error code = .AUTH ↔ code ∈ NON_RETRYABLE_CODES ∧ code < 1200) ∧
    (categorize_error code = .CODE ↔ code ∈ NON_RETRYABLE_CODES ∧ 1200 ≤ code) ∧
    (categorize_error code = .AUTH ↔ code ∈ ([1001, 1002, 1003, 1004] : List Int)) ∧
    (categorize_error code = .CODE ↔ code ∈ ([1201, 1202, 1205, 1206] : List Int)) ∧
    (categorize_error code = .UNKNOWN ↔
      (code ∉ TRANSIENT_ERROR_CODES ∧ code ∉ RESOURCE_ERROR_CODES ∧
       code ∉ NON_RETRYABLE_CODES)) ∧
    categorize_error 1203 = .UNKNOWN ∧ categorize_error 0 = .UNKNOWN := by
  by_cases h1 : code ∈ TRANSIENT_ERROR_CODES
  · unfold TRANSIENT_ERROR_CODES at h1
    fin_cases h1 <;> decide
  · by_cases h2 : code ∈ RESOURCE_ERROR_CODES
    · unfold RESOURCE_ERROR_CODES at h2
      fin_cases h2 <;> decide
    · by_cases h3 : code ∈ NON_RETRYABLE_CODES
      · unfold NON_RETRYABLE_CODES at h3
        fin_cases h3 <;> decide
      · have hu : categorize_error code = .UNKNOWN := by
          unfold categorize_error
          rw [if_neg h1, if_neg h2, if_neg h3]
        simp only [TRANSIENT_ERROR_CODES, RESOURCE_ERROR_CODES,
          NON_RETRYABLE_CODES, List.mem_cons, List.not_mem_nil,
          or_false] at h1 h2 h3 ⊢
        refine ⟨?_, ?_, ?_, ?_, ?_, ?_, ?_, by decide, by decide⟩ <;>
          simp only [hu] <;> simp <;> omega

/-- Claim C10: retry denial is permanent: for fixed code and maxAttempts,
once `should_retry` is false at some attempt index it stays false at
every later index. -/
theorem C10_retry_denial_permanent (code max_retries a b : Int) (hab : a ≤ b)
    (ha : should_retry code a max_retries = false) :
    should_retry code b max_retries = false := by
  by_contra h
  rw [Bool.not_eq_false] at h
  obtain ⟨hbm, hcat⟩ := (should_retry_eq_true_iff code b max_retries).mp h
  have hth : should_retry code a max_retries = true :=
    (should_retry_eq_true_iff code a max_retries).mpr
      ⟨by omega, by
        rcases hcat with hc | ⟨hc, hlt⟩ | ⟨hc, hlt⟩
        · exact Or.inl hc
        · exact Or.inr (Or.inl ⟨hc, by omega⟩)
        · exact Or.inr (Or.inr ⟨hc, by omega⟩)⟩
  rw [ha] at hth
  cases hth

/-- Witness for C10 at a concrete input: code 1104 (Resource) with
maxAttempts 10 is denied a retry at attempt 3, hence also at attempt 5. -/
theorem C10_witness :
    should_retry 1104 3 10 = false ∧ (3 : Int) ≤ 5 ∧ should_retry 1104 5 10 = false :=
  ⟨by decide, by decide, C10_retry_denial_permanent 1104 10 3 5 (by decide) (by decide)⟩

/-- `retryLoop_spec` lifted to `run_with_retry` (entry attempt 1), with all
parameters explicit. -/
lemma run_with_retry_spec (ex : Nat → RawResponse) (max_retries : Int)
    (b m : Rat) (v : Bool) (hmax : 1 ≤ max_retries) (hb : 0 ≤ b) (hm : 0 ≤ m) :
    ∃ r t, run_with_retry ex max_retries b m v = some (r, t) ∧
      1 ≤ r.attempts ∧ (r.attempts : Int) ≤ max_retries ∧
      t.calls = List.range' 1 r.attempts ∧
      t.delays = (List.range' 1 (r.attempts - 1)).map
        (fun j : Nat => backoff_delay (j : Int) b m) ∧
      (∀ j, 1 ≤ j → j < r.attempts → (ex j).success = false ∧
        should_retry (errorCodeOf (ex j)) j max_retries = true) ∧
      (((ex r.attempts).success = true ∧
          r = successResult (ex r.attempts) r.attempts) ∨
       ((ex r.attempts).success = false ∧
          should_retry (errorCodeOf (ex r.attempts)) r.attempts max_retries = false ∧
          r = failureResult (ex r.attempts) r.attempts)) := by
  obtain ⟨r, t, heq, hat, hatm, hcalls, hdelays, hpre, hterm⟩ :=
    @retryLoop_spec ex max_retries b m v hb hm 1 le_rfl (by omega)
  refine ⟨r, t, ?_, hat, hatm, ?_, hdelays, hpre, hterm⟩
  · unfold run_with_retry
    rw [if_neg (by omega), heq]
  · rw [hcalls]
    congr 1
    omega

/-- Claim C3 (amended): if attempts `1, ..., k - 1` fail with codes the
policy retries and attempt `k ≤ maxAttempts` succeeds, the run stops at
attempt `k` — the executor is called exactly at attempts `1, ..., k` — and
returns the success result built from attempt `k`'s response with
`attempts = k`. -/
theorem C3_first_success_stops (ex : Nat → RawResponse) (max_retries : Int)
    (b m : Rat) (v : Bool) (k : Nat) (h1 : 1 ≤ k) (hk : (k : Int) ≤ max_retries)
    (hb : 0 ≤ b) (hm : 0 ≤ m)
    (hpre : ∀ j, 1 ≤ j → j < k → (ex j).success = false ∧
      should_retry (errorCodeOf (ex j)) j max_retries = true)
    (hks : (ex k).success = true) :
    (run_with_retry ex max_retries b m v).map (fun p => (p.1, p.2.calls)) =
      some (successResult (ex k) k, List.range' 1 k) := by
  obtain ⟨r, t, heq, hat, hatm, hcalls, hdelays, hpre2, hterm⟩ :=
    run_with_retry_spec ex max_retries b m v (by omega) hb hm
  have hak : r.attempts = k := by
    by_contra hne
    rcases Nat.lt_or_ge r.attempts k with hlt | hge
    · have hp := hpre r.attempts hat hlt
      rcases hterm with ⟨hsT, _⟩ | ⟨_, hrF, _⟩
      · rw [hp.1] at hsT
        cases hsT
      · rw [hp.2] at hrF
        cases hrF
    · have hgt : k < r.attempts := by omega
      have hc := (hpre2 k h1 hgt).1
      rw [hks] at hc
      cases hc
  rcases hterm with ⟨_, hrEq⟩ | ⟨hsF, _, _⟩
  · rw [heq, Option.map_some']
    rw [hrEq, hak, hcalls, hak]
  · rw [hak, hks] at hsF
    cases hsF

/-- Counterexample to C3 as stated: for the executor whose attempt 1 fails
with Auth code 1001 and whose attempt 2 would succeed, the first
successful attempt is k = 2 ≤ maxAttempts = 5, yet the run returns a
failure with attempts = 1 instead of success with attempts = 2. -/
theorem C3_counterexample :
    (exAuthThenOk 1).success = false ∧ (exAuthThenOk 2).success = true ∧
    (run_with_retry exAuthThenOk 5 1 60 false).map
        (fun p => (p.1.success, p.1.attempts)) = some (false, 1) := by
  refine ⟨rfl, rfl, ?_⟩
  unfold run_with_retry
  rw [if_neg (by norm_num), retryLoop_stop rfl (by decide)]
  rfl

/-- Witness for the amended C3: two 1101 failures then success, with
`maxAttempts = 5`, yields the success result of attempt 3 and calls at
attempts 1, 2, 3 only. -/
theorem C3_witness :
    (run_with_retry exTwoFailsThenOk 5 1 60 false).map (fun p => (p.1, p.2.calls)) =
      some (successResult (exTwoFailsThenOk 3) 3, List.range' 1 3) :=
  C3_first_success_stops exTwoFailsThenOk 5 1 60 false 3 (by norm_num) (by norm_num)
    (by norm_num) (by norm_num)
    (by
      intro j hj1 hj2
      interval_cases j <;> exact ⟨rfl, by decide⟩)
    rfl

/-- Claim C4: when no attempt succeeds, the run returns a failure carrying
exactly the last made attempt's error code and message, with `attempts`
equal to the number of executor calls: bounded by maxAttempts, and equal
to the index at which the policy stopped (every earlier attempt was
allowed a retry, the last was denied one — at exhaustion the ceiling rule
itself denies it). -/
theorem C4_failure_carries_last_error (ex : Nat → RawResponse) (max_retries : Int)
    (b m : Rat) (v : Bool) (hmax : 1 ≤ max_retries) (hb : 0 ≤ b) (hm : 0 ≤ m)
    (hfail : ∀ j, (ex j).success = false) :
    ∃ r t, run_with_retry ex max_retries b m v = some (r, t) ∧
      r.success = false ∧
      r.error_code = some (errorCodeOf (ex r.attempts)) ∧
      r.error_message = some (errorMessageOf (ex r.attempts)) ∧
      1 ≤ r.attempts ∧ (r.attempts : Int) ≤ max_retries ∧
      r.attempts = t.calls.length ∧
      should_retry (errorCodeOf (ex r.attempts)) r.attempts max_retries = false ∧
      (∀ j, 1 ≤ j → j < r.attempts →
        should_retry (errorCodeOf (ex j)) j max_retries = true) := by
  obtain ⟨r, t, heq, hat, hatm, hcalls, hdelays, hpre, hterm⟩ :=
    run_with_retry_spec ex max_retries b m v hmax hb hm
  rcases hterm with ⟨hsT, _⟩ | ⟨hsF, hrF, hrEq⟩
  · rw [hfail r.attempts] at hsT
    cases hsT
  · refine ⟨r, t, heq, ?_, ?_, ?_, hat, hatm, ?_, hrF,
      fun j hj1 hj2 => (hpre j hj1 hj2).2⟩
    · rw [hrEq]
      rfl
    · rw [hrEq]
      rfl
    · rw [hrEq]
      rfl
    · rw [hcalls, List.length_range']

/-- Witness for C4: every attempt failing with code 1101 and
`maxAttempts = 3`. -/
theorem C4_witness :
    ∃ r t, run_with_retry exAllFail1101 3 1 60 false = some (r, t) ∧
      r.success = false ∧
      r.error_code = some (errorCodeOf (exAllFail1101 r.attempts)) ∧
      r.error_message = some (errorMessageOf (exAllFail1101 r.attempts)) ∧
      1 ≤ r.attempts ∧ (r.attempts : Int) ≤ 3 ∧
      r.attempts = t.calls.length ∧
      should_retry (errorCodeOf (exAllFail1101 r.attempts)) r.attempts 3 = false ∧
      (∀ j, 1 ≤ j → j < r.attempts →
        should_retry (errorCodeOf (exAllFail1101 j)) j 3 = true) :=
  C4_failure_carries_last_error exAllFail1101 3 1 60 false (by norm_num)
    (by norm_num) (by norm_num) (fun j => rfl)

/-- The result of `run_with_retry exAllFail1101 3 1 60 false`. -/
def resAllFail1101 : ExecutionResult :=
  { success := false, error_code := some 1101,
    error_message := some "Connection timeout", attempts := 3 }

/-- The trace of `run_with_retry exAllFail1101 3 1 60 false`. -/
def traceAllFail1101 : RetryTrace :=
  { calls := [1, 2, 3], log := [], delays := [1, 2] }

lemma run_exAllFail1101_eq :
    run_with_retry exAllFail1101 3 1 60 false =
      some (resAllFail1101, traceAllFail1101) :=
  run_exAllFail1101_eval

/-- Every delay recorded by the loop entered at attempt `a` follows the
backoff formula at the attempt it was computed for: the `i`-th recorded
delay (0-based) belongs to attempt `a + i`. -/
lemma retryLoop_delays (ex : Nat → RawResponse) (max_retries : Int) (b m : Rat)
    (v : Bool) :
    ∀ (a : Nat) (r : ExecutionResult) (t : RetryTrace),
      retryLoop ex max_retries b m v a = some (r, t) →
      ∀ i d, t.delays.get? i = some d →
        d = backoff_delay ((a + i : Nat) : Int) b m := by
  have key : ∀ (n a : Nat), (max_retries + 1 - a).toNat ≤ n →
      ∀ r t, retryLoop ex max_retries b m v a = some (r, t) →
      ∀ i d, t.delays.get? i = some d →
        d = backoff_delay ((a + i : Nat) : Int) b m := by
    intro n
    induction n with
    | zero =>
      intro a hn r t heq i d hd
      cases hs : (ex a).success with
      | true =>
        rw [retryLoop_success hs] at heq
        injection heq with h
        injection h with hA hB
        subst hB
        simp at hd
      | false =>
        have hr : should_retry (errorCodeOf (ex a)) a max_retries = false :=
          should_retry_ceiling (by omega)
        rw [retryLoop_stop hs hr] at heq
        injection heq with h
        injection h with hA hB
        subst hB
        simp at hd
    | succ n IH =>
      intro a hn r t heq i d hd
      cases hs : (ex a).success with
      | true =>
        rw [retryLoop_success hs] at heq
        injection heq with h
        injection h with hA hB
        subst hB
        simp at hd
      | false =>
        cases hr : should_retry (errorCodeOf (ex a)) a max_retries with
        | false =>
          rw [retryLoop_stop hs hr] at heq
          injection heq with h
          injection h with hA hB
          subst hB
          simp at hd
        | true =>
          by_cases hdneg : backoff_delay a b m < 0
          · rw [retryLoop_sleep_raises hs hr hdneg] at heq
            cases heq
          · rw [retryLoop_retry hs hr hdneg] at heq
            cases h2 : retryLoop ex max_retries b m v (a + 1) with
            | none =>
              rw [h2] at heq
              cases heq
            | some p =>
              obtain ⟨r2, t2⟩ := p
              rw [h2, Option.map_some'] at heq
              injection heq with h
              injection h with hA hB
              subst hB
              cases i with
              | zero =>
                simp only [List.get?_cons_zero, Option.some.injEq] at hd
                rw [← hd]
                rw [show ((a + 0 : Nat) : Int) = ((a : Nat) : Int) by norm_num]
              | succ i2 =>
                have hrec := IH (a + 1)
                  (by
                    have := should_retry_lt_max hr
                    omega)
                  r2 t2 h2 i2 d (by simpa using hd)
                rw [hrec]
                congr 1
                push_cast
                omega
  intro a r t heq i d hd
  exact key (max_retries + 1 - a).toNat a le_rfl r t heq i d hd

/-- Claim C5: the backoff delay follows
`min(base_delay * 2 ^ (attempt - 1), max_delay)`: the named values of the
spec hold, and in every run of `run_with_retry` the `i`-th slept delay
(belonging to attempt `1 + i`) equals that formula. -/
theorem C5_backoff_schedule :
    backoff_delay 1 1 60 = 1 ∧ backoff_delay 4 1 60 = 8 ∧
    backoff_delay 10 1 60 = 60 ∧
    (∀ (ex : Nat → RawResponse) (max_retries : Int) (b m : Rat) (v : Bool)
        (r : ExecutionResult) (t : RetryTrace),
      run_with_retry ex max_retries b m v = some (r, t) →
      ∀ i d, t.delays.get? i = some d →
        d = min (b * 2 ^ (((1 + i : Nat) : Int) - 1)) m) := by
  refine ⟨by unfold backoff_delay; norm_num [min_def],
          by unfold backoff_delay; norm_num [min_def],
          by unfold backoff_delay; norm_num [min_def], ?_⟩
  intro ex max_retries b m v r t hrun i d hd
  unfold run_with_retry at hrun
  by_cases hmax : max_retries < 1
  · rw [if_pos hmax] at hrun
    cases hrun
  · rw [if_neg hmax] at hrun
    exact retryLoop_delays ex max_retries b m v 1 r t hrun i d hd

/-- Witness for C5: in the three-failure run, the second recorded delay
(for attempt 2) is 2, equal to `min(1 * 2 ^ (2 - 1), 60)`. -/
theorem C5_witness :
    run_with_retry exAllFail1101 3 1 60 false =
      some (resAllFail1101, traceAllFail1101) ∧
    traceAllFail1101.delays.get? 1 = some 2 ∧
    (2 : Rat) = min ((1 : Rat) * 2 ^ (((1 + 1 : Nat) : Int) - 1)) 60 :=
  ⟨run_exAllFail1101_eq, rfl,
    C5_backoff_schedule.2.2.2 exAllFail1101 3 1 60 false resAllFail1101
      traceAllFail1101 run_exAllFail1101_eq 1 2 rfl⟩

/-- Claim C6 (amended): with `max_retries ≥ 1` and nonnegative delay
parameters, `run_with_retry` always returns a terminal `ExecutionResult`
(no exception, modelled as `none`, can occur). -/
theorem C6_total_no_raise (ex : Nat → RawResponse) (max_retries : Int)
    (b m : Rat) (v : Bool) (hmax : 1 ≤ max_retries) (hb : 0 ≤ b) (hm : 0 ≤ m) :
    (run_with_retry ex max_retries b m v).isSome = true := by
  obtain ⟨r, t, heq, _⟩ := run_with_retry_spec ex max_retries b m v hmax hb hm
  rw [heq]
  rfl

/-- Counterexample to C6 as stated: with `max_retries = 0` the `for` loop
body never runs and the final `ExecutionResult(..., attempts=attempt)`
raises `UnboundLocalError` — the run does not return a result. -/
theorem C6_counterexample :
    run_with_retry exAllFail1101 0 1 60 false = none := rfl

/-- Witness for the amended C6 at a concrete input. -/
theorem C6_witness :
    (run_with_retry exAllFail1101 1 1 60 false).isSome = true :=
  C6_total_no_raise exAllFail1101 1 1 60 false (by norm_num) (by norm_num)
    (by norm_num)

/-- Claim C7 (amended): provided every failing response's error message,
when present, is non-empty (the default used for an absent message is the
non-empty "Unknown error"), every result of `run_with_retry` satisfies:
on success the error fields are `None`; on failure the error message is a
non-empty string and `attempts` equals the number of executor calls made,
which is at least 1. -/
theorem C7_result_invariants (ex : Nat → RawResponse) (max_retries : Int)
    (b m : Rat) (v : Bool) (hmax : 1 ≤ max_retries) (hb : 0 ≤ b) (hm : 0 ≤ m)
    (hmsg : ∀ j e s2, (ex j).error = some e → e.message = some s2 → s2 ≠ "") :
    ∀ r t, run_with_retry ex max_retries b m v = some (r, t) →
      (r.success = true → r.error_code = none ∧ r.error_message = none) ∧
      (r.success = false → ∃ s2, r.error_message = some s2 ∧ s2 ≠ "" ∧
        1 ≤ r.attempts ∧ r.attempts = t.calls.length) := by
  intro r t hrun
  obtain ⟨r2, t2, heq, hat, hatm, hcalls, hdelays, hpre, hterm⟩ :=
    run_with_retry_spec ex max_retries b m v hmax hb hm
  rw [hrun] at heq
  injection heq with h
  injection h with hA hB
  subst hA
  subst hB
  constructor
  · intro hsucc
    rcases hterm with ⟨_, hrEq⟩ | ⟨_, _, hrEq⟩
    · rw [hrEq]
      exact ⟨rfl, rfl⟩
    · rw [hrEq] at hsucc
      simp [failureResult] at hsucc
  · intro hfails
    rcases hterm with ⟨_, hrEq⟩ | ⟨_, _, hrEq⟩
    · rw [hrEq] at hfails
      simp [successResult] at hfails
    · refine ⟨errorMessageOf (ex r.attempts), ?_, ?_, hat, ?_⟩
      · rw [hrEq]
        rfl
      · unfold errorMessageOf
        cases hE : (ex r.attempts).error with
        | none => decide
        | some e =>
          simp only [Option.getD_some]
          cases hM : e.message with
          | none => decide
          | some s2 =>
            simp only [Option.getD_some]
            exact hmsg r.attempts e s2 hE hM
      · rw [hcalls, List.length_range']

/-- Counterexample to C7 as stated: when the external response carries an
explicitly empty error message, the returned failure's message is the
empty string. -/
theorem C7_counterexample :
    (run_with_retry exEmptyMessage 1 1 60 false).map
        (fun p => (p.1.success, p.1.error_message)) = some (false, some "") := by
  unfold run_with_retry
  rw [if_neg (by norm_num), retryLoop_stop rfl (by decide)]
  rfl

/-- Witness for the amended C7 on the three-failure run. -/
theorem C7_witness :
    (resAllFail1101.success = true →
      resAllFail1101.error_code = none ∧ resAllFail1101.error_message = none) ∧
    (resAllFail1101.success = false → ∃ s2,
      resAllFail1101.error_message = some s2 ∧ s2 ≠ "" ∧
      1 ≤ resAllFail1101.attempts ∧
      resAllFail1101.attempts = traceAllFail1101.calls.length) :=
  C7_result_invariants exAllFail1101 3 1 60 false (by norm_num) (by norm_num)
    (by norm_num)
    (by
      intro j e s2 he hm2
      simp only [exAllFail1101, respFail1101, Option.some.injEq] at he
      subst he
      simp only [Option.some.injEq] at hm2
      subst hm2
      decide)
    resAllFail1101 traceAllFail1101 run_exAllFail1101_eq

/-- Claim C8 (amended): in plain output mode `main` exits 0 exactly on
success and 1 on failure; in `--json` mode it always exits 0 — the JSON
branch prints the document and falls through without `sys.exit`. -/
theorem C8_exit_convention (r : ExecutionResult) :
    (main_exit_code false r = 0 ↔ r.success = true) ∧
    main_exit_code true r = 0 := by
  constructor
  · unfold main_exit_code
    cases hs : r.success <;> simp [hs]
  · rfl

/-- Counterexample to C8 as stated: a failed result printed in `--json`
mode still exits with status 0. -/
theorem C8_counterexample :
    resAllFail1101.success = false ∧ main_exit_code true resAllFail1101 = 0 :=
  ⟨rfl, rfl⟩

/-- Claim C9: the `verbose` flag (stderr progress reporting) never changes
the returned `ExecutionResult`. -/
theorem C9_verbose_no_effect (ex : Nat → RawResponse) (max_retries : Int)
    (b m : Rat) :
    (run_with_retry ex max_retries b m true).map (fun p => p.1) =
    (run_with_retry ex max_retries b m false).map (fun p => p.1) := by
  unfold run_with_retry
  by_cases hmax : max_retries < 1
  · rw [if_pos hmax, if_pos hmax]
  · rw [if_neg hmax, if_neg hmax]
    have h := @retryLoop_verbose_indep ex max_retries b m 1 true false
    have h2 := congrArg
      (Option.map (fun q : ExecutionResult × (List Nat × List Rat) => q.1)) h
    simp only [Option.map_map] at h2
    exact h2
